import Mathlib

/-!
Shallow embedding of the data-acquisition and signal-derivation core of a
crypto market dashboard (src/src/App.tsx). Market quantities are modelled
as exact rationals; the JavaScript object used as the funding-rate map is
modelled as an association list keyed by uppercase symbol; the network
fetch is modelled by an explicit outcome value fed to the acquisition
function.
-/

namespace CryptoDashboard

/-- The CryptoData interface (App.tsx lines 7-22). The optional
funding_rate field is never populated by the component. -/
structure CryptoData where
  id : String
  name : String
  symbol : String
  current_price : ℚ
  price_change_percentage_24h : ℚ
  price_change_percentage_7d : ℚ
  total_volume : ℚ
  image : String
  high_24h : ℚ
  low_24h : ℚ
  ath : ℚ
  ath_change_percentage : ℚ
  circulating_supply : ℚ
  funding_rate : Option ℚ := none
deriving DecidableEq

/-- The FundingRateData interface (lines 24-26): a map from uppercase
symbol to signed fractional rate, modelled as an association list. -/
abbrev FundingRateData := List (String × ℚ)

/-- The fixed target-asset list (line 36). -/
def targetCoins : List String :=
  ["bitcoin", "ethereum", "binancecoin", "solana", "cardano", "sui",
   "sei-network", "hype-token", "dogecoin", "bonk"]

/-- The hand-authored fallback dataset (lines 69-220), substituted by the
inner catch whenever the direct fetch fails. -/
def mockCryptoData : List CryptoData :=
  [{ id := "bitcoin", name := "Bitcoin", symbol := "btc",
     current_price := 43250.67, price_change_percentage_24h := 2.34,
     price_change_percentage_7d := -1.23, total_volume := 18500000000,
     image := "https://assets.coingecko.com/coins/images/1/large/bitcoin.png",
     high_24h := 44100.50, low_24h := 42800.25, ath := 69045.00,
     ath_change_percentage := -37.4, circulating_supply := 19750000 },
   { id := "ethereum", name := "Ethereum", symbol := "eth",
     current_price := 2567.89, price_change_percentage_24h := -0.87,
     price_change_percentage_7d := 3.45, total_volume := 12300000000,
     image := "https://assets.coingecko.com/coins/images/279/large/ethereum.png",
     high_24h := 2620.45, low_24h := 2540.12, ath := 4878.26,
     ath_change_percentage := -47.4, circulating_supply := 120400000 },
   { id := "binancecoin", name := "BNB", symbol := "bnb",
     current_price := 315.42, price_change_percentage_24h := 1.56,
     price_change_percentage_7d := -2.1, total_volume := 890000000,
     image := "https://assets.coingecko.com/coins/images/825/large/bnb-icon2_2x.png",
     high_24h := 320.15, low_24h := 310.80, ath := 686.31,
     ath_change_percentage := -54.0, circulating_supply := 153856150 },
   { id := "solana", name := "Solana", symbol := "sol",
     current_price := 98.76, price_change_percentage_24h := 4.23,
     price_change_percentage_7d := 8.91, total_volume := 2100000000,
     image := "https://assets.coingecko.com/coins/images/4128/large/solana.png",
     high_24h := 102.45, low_24h := 94.20, ath := 259.96,
     ath_change_percentage := -62.0, circulating_supply := 467000000 },
   { id := "cardano", name := "Cardano", symbol := "ada",
     current_price := 0.4567, price_change_percentage_24h := -1.23,
     price_change_percentage_7d := 2.34, total_volume := 450000000,
     image := "https://assets.coingecko.com/coins/images/975/large/cardano.png",
     high_24h := 0.4720, low_24h := 0.4450, ath := 3.09,
     ath_change_percentage := -85.2, circulating_supply := 35000000000 },
   { id := "sui", name := "Sui", symbol := "sui",
     current_price := 3.45, price_change_percentage_24h := 6.78,
     price_change_percentage_7d := 12.34, total_volume := 180000000,
     image := "https://assets.coingecko.com/coins/images/26375/large/sui_asset.jpeg",
     high_24h := 3.67, low_24h := 3.21, ath := 4.96,
     ath_change_percentage := -30.4, circulating_supply := 2800000000 },
   { id := "sei-network", name := "Sei", symbol := "sei",
     current_price := 0.4234, price_change_percentage_24h := -2.45,
     price_change_percentage_7d := 5.67, total_volume := 95000000,
     image := "https://assets.coingecko.com/coins/images/28205/large/sei.png",
     high_24h := 0.4456, low_24h := 0.4123, ath := 1.14,
     ath_change_percentage := -62.9, circulating_supply := 3800000000 },
   { id := "hype-token", name := "Hyperliquid", symbol := "hype",
     current_price := 28.67, price_change_percentage_24h := 8.91,
     price_change_percentage_7d := -3.45, total_volume := 320000000,
     image := "https://assets.coingecko.com/coins/images/34437/large/hype.png",
     high_24h := 30.12, low_24h := 26.45, ath := 34.78,
     ath_change_percentage := -17.6, circulating_supply := 270000000 },
   { id := "dogecoin", name := "Dogecoin", symbol := "doge",
     current_price := 0.0789, price_change_percentage_24h := 3.45,
     price_change_percentage_7d := -1.23, total_volume := 890000000,
     image := "https://assets.coingecko.com/coins/images/5/large/dogecoin.png",
     high_24h := 0.0812, low_24h := 0.0756, ath := 0.7376,
     ath_change_percentage := -89.3, circulating_supply := 147000000000 },
   { id := "bonk", name := "Bonk", symbol := "bonk",
     current_price := 0.00003456, price_change_percentage_24h := 12.34,
     price_change_percentage_7d := 23.45, total_volume := 67000000,
     image := "https://assets.coingecko.com/coins/images/28600/large/bonk.jpg",
     high_24h := 0.00003678, low_24h := 0.00003123, ath := 0.00004704,
     ath_change_percentage := -26.5, circulating_supply := 75000000000000 }]

/-- The badge object returned by the signal functions: the literal
signal/color/bgColor record of the source. -/
structure SignalBadge where
  signal : String
  color : String
  bgColor : String
deriving DecidableEq

/-- The fixed base funding rates (lines 227-238), in listed (insertion)
order, as Object.entries enumerates them. -/
def baseRates : List (String × ℚ) :=
  [("BTC", 0.0123), ("ETH", -0.0087), ("BNB", 0.0034), ("SOL", -0.0156),
   ("ADA", 0.0089), ("SUI", -0.0023), ("SEI", 0.0067), ("HYPE", -0.0134),
   ("DOGE", 0.0045), ("BONK", -0.0078)]

/-- generateFundingRates (lines 226-248): for every base rate, add
(random - 0.5) * 0.002. The per-symbol random draw is modelled by the
function rand, indexed by position in baseRates. -/
def generateFundingRates (rand : Nat → ℚ) : FundingRateData :=
  baseRates.enum.map (fun p => (p.2.1, p.2.2 + (rand p.1 - 0.5) * 0.002))

/-- Model of the JavaScript String.prototype.toUpperCase used throughout
the component: uppercase every character. All symbols involved are ASCII,
for which this is exact. -/
def toUpperCase (s : String) : String := ⟨s.data.map Char.toUpper⟩

/-- The default return at the end of the no-funding branch of
getTradeSignal (lines 330-333): symbol BNB gets BUY, every other symbol
gets SELL. -/
def defaultSignal (symbol : String) : Option SignalBadge :=
  if toUpperCase symbol = "BNB" then
    some { signal := "BUY", color := "text-green-500", bgColor := "bg-green-500/10" }
  else
    some { signal := "SELL", color := "text-red-500", bgColor := "bg-red-500/10" }

/-- The body of the (!rate) branch of getTradeSignal (lines 321-333):
look up the asset record by symbol, apply the 24h momentum thresholds,
and otherwise fall through to defaultSignal (also reached when no record
matches). -/
def noRatePath (cryptoData : List CryptoData) (symbol : String) : Option SignalBadge :=
  match cryptoData.find? (fun c => toUpperCase c.symbol == toUpperCase symbol) with
  | some crypto =>
      if crypto.price_change_percentage_24h ≥ 2 then
        some { signal := "BUY", color := "text-green-500", bgColor := "bg-green-500/10" }
      else if crypto.price_change_percentage_24h ≤ -2 then
        some { signal := "SELL", color := "text-red-500", bgColor := "bg-red-500/10" }
      else defaultSignal symbol
  | none => defaultSignal symbol

/-- getTradeSignal (lines 317-342). The source guard is the JavaScript
truthiness test (!rate), which holds when the key is absent from the map
and also when the stored rate is exactly 0; both cases take noRatePath. -/
def getTradeSignal (fundingRates : FundingRateData) (cryptoData : List CryptoData)
    (symbol : String) : Option SignalBadge :=
  match List.lookup (toUpperCase symbol) fundingRates with
  | none => noRatePath cryptoData symbol
  | some rate =>
      if rate = 0 then noRatePath cryptoData symbol
      else if rate ≥ 0.005 then
        some { signal := "SELL", color := "text-red-500", bgColor := "bg-red-500/10" }
      else if rate ≤ -0.005 then
        some { signal := "BUY", color := "text-green-500", bgColor := "bg-green-500/10" }
      else none

/-- getFundingSignal (lines 304-314), with the same truthiness guard. -/
def getFundingSignal (fundingRates : FundingRateData) (symbol : String) : Option SignalBadge :=
  match List.lookup (toUpperCase symbol) fundingRates with
  | none => none
  | some rate =>
      if rate = 0 then none
      else if rate ≥ 0.005 then
        some { signal := "SELL", color := "text-red-500", bgColor := "bg-red-500/10" }
      else if rate ≤ -0.005 then
        some { signal := "BUY", color := "text-green-500", bgColor := "bg-green-500/10" }
      else none

/-- Outcome of the network fetch inside fetchCryptoData: a parsed JSON
array on a 2xx response, the thrown HTTP error on a non-ok response
(lines 58-60), or a transport-level rejection of fetch itself. -/
inductive FetchOutcome where
  | success (data : List CryptoData)
  | httpError (status : Nat) (statusText : String)
  | transportError
deriving DecidableEq

/-- A retry scheduled via setTimeout (line 260): the attempt count passed
to the re-invocation and the delay in milliseconds. -/
structure ScheduledRetry where
  nextRetryCount : Nat
  delayMs : Nat
deriving DecidableEq

/-- The component state left behind by one run of fetchCryptoData:
the two snapshots, the error state, any retry it scheduled, and the
loading flag. -/
structure CycleResult where
  cryptoData : List CryptoData
  fundingRates : FundingRateData
  error : Option String
  scheduledRetry : Option ScheduledRetry
  loading : Bool
deriving DecidableEq

/-- One run of fetchCryptoData (lines 38-273) given the fetch outcome.
The network fetch is the only fallible step of the outer try body, and
the inner catch (lines 65-223) converts every fetch failure, HTTP or
transport, directly into the mock fallback dataset; the remaining steps
(setting state, generating funding rates, taking a timestamp) do not
throw, so control never reaches the outer catch from here and no retry
is ever scheduled on this path. setError(null) runs at entry and the
finally block clears the loading flag. -/
def fetchCryptoData (outcome : FetchOutcome) (rand : Nat → ℚ) (retryCount : Nat) : CycleResult :=
  let newCryptoData :=
    match outcome with
    | .success data => data
    | .httpError _ _ => mockCryptoData
    | .transportError => mockCryptoData
  { cryptoData := newCryptoData
    fundingRates := generateFundingRates rand
    error := none
    scheduledRetry := none
    loading := false }

/-- What the outer catch of fetchCryptoData (lines 253-269) decides when
it runs with the given attempt count and current record count: below
attempt 3 it schedules one retry with exponential backoff and returns;
otherwise it sets the error string and, when the record set is empty,
re-invokes fetchCryptoData once more. -/
structure RetryDecision where
  error : Option String
  scheduledRetry : Option ScheduledRetry
  refetchTriggered : Bool
deriving DecidableEq

/-- The outer catch body of fetchCryptoData (lines 253-269), modelled as
a function of the attempt count and the current cryptoData length. -/
def retryLogic (retryCount : Nat) (cryptoDataLength : Nat) : RetryDecision :=
  if retryCount < 3 then
    { error := none
      scheduledRetry := some { nextRetryCount := retryCount + 1, delayMs := 2 ^ retryCount * 1000 }
      refetchTriggered := false }
  else
    { error := some ("Connection failed after " ++ toString (retryCount + 1)
        ++ " attempts. Using offline data.")
      scheduledRetry := none
      refetchTriggered := cryptoDataLength == 0 }

/-- Component state before the first cycle (lines 29-33). -/
def initialState : CycleResult :=
  { cryptoData := [], fundingRates := [], error := none,
    scheduledRetry := none, loading := true }

/-- A run of consecutive scheduler ticks (line 279): each tick invokes
fetchCryptoData with attempt count 0 and replaces the component state
wholesale with that run of the cycle. -/
def runCycles (outcomes : List FetchOutcome) (rand : Nat → ℚ) : CycleResult :=
  outcomes.foldl (fun _ o => fetchCryptoData o rand 0) initialState

/-- Test asset record: Dogecoin with a 24h change of 1 percent, strictly
inside the momentum band. -/
def quietDoge : CryptoData :=
  { id := "dogecoin", name := "Dogecoin", symbol := "doge",
    current_price := 0.0789, price_change_percentage_24h := 1,
    price_change_percentage_7d := -1.23, total_volume := 890000000,
    image := "https://assets.coingecko.com/coins/images/5/large/dogecoin.png",
    high_24h := 0.0812, low_24h := 0.0756, ath := 0.7376,
    ath_change_percentage := -89.3, circulating_supply := 147000000000 }

/-- Test asset record: Sui with a 24h change of 1 percent, the scenario
named by the specification. -/
def quietSui : CryptoData :=
  { id := "sui", name := "Sui", symbol := "sui",
    current_price := 3.45, price_change_percentage_24h := 1,
    price_change_percentage_7d := 12.34, total_volume := 180000000,
    image := "https://assets.coingecko.com/coins/images/26375/large/sui_asset.jpeg",
    high_24h := 3.67, low_24h := 3.21, ath := 4.96,
    ath_change_percentage := -30.4, circulating_supply := 2800000000 }

/-- Test asset record: Bitcoin surging 5 percent in 24h. -/
def surgingBtc : CryptoData :=
  { id := "bitcoin", name := "Bitcoin", symbol := "btc",
    current_price := 43250.67, price_change_percentage_24h := 5,
    price_change_percentage_7d := -1.23, total_volume := 18500000000,
    image := "https://assets.coingecko.com/coins/images/1/large/bitcoin.png",
    high_24h := 44100.50, low_24h := 42800.25, ath := 69045.00,
    ath_change_percentage := -37.4, circulating_supply := 19750000 }

/-- Test asset record: Solana with the fallback dataset's 4.23 percent
24h gain. -/
def surgingSol : CryptoData :=
  { id := "solana", name := "Solana", symbol := "sol",
    current_price := 98.76, price_change_percentage_24h := 4.23,
    price_change_percentage_7d := 8.91, total_volume := 2100000000,
    image := "https://assets.coingecko.com/coins/images/4128/large/solana.png",
    high_24h := 102.45, low_24h := 94.20, ath := 259.96,
    ath_change_percentage := -62.0, circulating_supply := 467000000 }

/-- Test asset record: Sei with the fallback dataset's -2.45 percent 24h
change. -/
def fallingSei : CryptoData :=
  { id := "sei-network", name := "Sei", symbol := "sei",
    current_price := 0.4234, price_change_percentage_24h := -2.45,
    price_change_percentage_7d := 5.67, total_volume := 95000000,
    image := "https://assets.coingecko.com/coins/images/28205/large/sei.png",
    high_24h := 0.4456, low_24h := 0.4123, ath := 1.14,
    ath_change_percentage := -62.9, circulating_supply := 3800000000 }

/-!
Theorems.
-/

/-- C4: for every symbol with a present funding-rate entry r, the signal
function returns SELL when r is at least 0.005 and BUY when r is at most
minus 0.005 (lines 336-340; a rate clearing either threshold is nonzero,
so the truthiness guard cannot divert it). -/
theorem funding_threshold_rules (fundingRates : FundingRateData)
    (cryptoData : List CryptoData) (symbol : String) (r : ℚ)
    (h : List.lookup (toUpperCase symbol) fundingRates = some r) :
    (r ≥ 0.005 → getTradeSignal fundingRates cryptoData symbol =
        some { signal := "SELL", color := "text-red-500", bgColor := "bg-red-500/10" }) ∧
    (r ≤ -0.005 → getTradeSignal fundingRates cryptoData symbol =
        some { signal := "BUY", color := "text-green-500", bgColor := "bg-green-500/10" }) := by
  simp only [getTradeSignal, h]
  constructor
  · intro hr
    have h0 : ¬(r = 0) := by intro h0; rw [h0] at hr; norm_num at hr
    rw [if_neg h0, if_pos hr]
  · intro hr
    have h0 : ¬(r = 0) := by intro h0; rw [h0] at hr; norm_num at hr
    have h1 : ¬(r ≥ 0.005) := by intro h1; norm_num at hr h1; linarith
    rw [if_neg h0, if_neg h1, if_pos hr]

/-- C4 witness: the specification scenarios, a BTC rate of 0.0123 yields
SELL and an ETH rate of -0.0087 yields BUY. -/
theorem funding_threshold_rules_witness :
    getTradeSignal [("BTC", 0.0123)] [] "BTC" =
      some { signal := "SELL", color := "text-red-500", bgColor := "bg-red-500/10" } ∧
    getTradeSignal [("ETH", -0.0087)] [] "ETH" =
      some { signal := "BUY", color := "text-green-500", bgColor := "bg-green-500/10" } :=
  ⟨(funding_threshold_rules [("BTC", 0.0123)] [] "BTC" 0.0123 rfl).1 (by norm_num),
   (funding_threshold_rules [("ETH", -0.0087)] [] "ETH" (-0.0087) rfl).2 (by norm_num)⟩

/-- C5: for a symbol with no funding-rate entry whose asset record is
present, a 24h change of at least 2 yields BUY and of at most -2 yields
SELL (lines 321-328). -/
theorem momentum_rules_without_funding (fundingRates : FundingRateData)
    (cryptoData : List CryptoData) (symbol : String) (crypto : CryptoData)
    (hrate : List.lookup (toUpperCase symbol) fundingRates = none)
    (hfind : cryptoData.find? (fun c => toUpperCase c.symbol == toUpperCase symbol) = some crypto) :
    (crypto.price_change_percentage_24h ≥ 2 → getTradeSignal fundingRates cryptoData symbol =
        some { signal := "BUY", color := "text-green-500", bgColor := "bg-green-500/10" }) ∧
    (crypto.price_change_percentage_24h ≤ -2 → getTradeSignal fundingRates cryptoData symbol =
        some { signal := "SELL", color := "text-red-500", bgColor := "bg-red-500/10" }) := by
  simp only [getTradeSignal, hrate, noRatePath, hfind]
  constructor
  · intro hc
    rw [if_pos hc]
  · intro hc
    have h1 : ¬(crypto.price_change_percentage_24h ≥ 2) := by intro h1; norm_num at hc h1; linarith
    rw [if_neg h1, if_pos hc]

/-- C5 witness: with no funding entry, Solana at +4.23 percent yields BUY
and Sei at -2.45 percent yields SELL. -/
theorem momentum_rules_without_funding_witness :
    getTradeSignal [] [surgingSol] "SOL" =
      some { signal := "BUY", color := "text-green-500", bgColor := "bg-green-500/10" } ∧
    getTradeSignal [] [fallingSei] "SEI" =
      some { signal := "SELL", color := "text-red-500", bgColor := "bg-red-500/10" } :=
  ⟨(momentum_rules_without_funding [] [surgingSol] "SOL" surgingSol rfl rfl).1 (by norm_num [surgingSol]),
   (momentum_rules_without_funding [] [fallingSei] "SEI" fallingSei rfl rfl).2 (by norm_num [fallingSei])⟩

/-- C2 counterexample: BTC has the inside-band funding rate 0.001 and a
24h gain of 5 percent; the claim predicts the momentum rule fires (BUY),
but getTradeSignal returns none without consulting momentum, because a
nonzero inside-band rate falls through both thresholds to the final
null return (line 341). -/
theorem inside_band_rate_skips_momentum_cex :
    getTradeSignal [("BTC", 0.001)] [surgingBtc] "BTC" = none ∧
    surgingBtc.price_change_percentage_24h ≥ 2 := by
  constructor
  · with_unfolding_all decide
  · norm_num [surgingBtc]

/-- C2 amended: for a symbol whose funding-rate entry is strictly inside
the band and nonzero, getTradeSignal returns the no-signal result without
evaluating the 24h momentum rule; only an entry of exactly 0 falls
through (by the truthiness guard) to the momentum rule. -/
theorem inside_band_nonzero_rate_returns_no_signal (fundingRates : FundingRateData)
    (cryptoData : List CryptoData) (symbol : String) (r : ℚ)
    (h : List.lookup (toUpperCase symbol) fundingRates = some r)
    (h0 : r ≠ 0) (hlo : -0.005 < r) (hhi : r < 0.005) :
    getTradeSignal fundingRates cryptoData symbol = none := by
  simp only [getTradeSignal, h]
  have h1 : ¬(r ≥ 0.005) := by intro h1; norm_num at h1 hhi; linarith
  have h2 : ¬(r ≤ -0.005) := by intro h2; norm_num at h2 hlo; linarith
  rw [if_neg h0, if_neg h1, if_neg h2]

/-- C2 amended witness: an inside-band BTC rate of 0.001 produces the
no-signal result even with an asset record surging 5 percent present. -/
theorem inside_band_nonzero_rate_returns_no_signal_witness :
    getTradeSignal [("BTC", 0.001)] [surgingBtc] "BTC" = none :=
  inside_band_nonzero_rate_returns_no_signal [("BTC", 0.001)] [surgingBtc] "BTC" 0.001
    rfl (by norm_num) (by norm_num) (by norm_num)

/-- C3 counterexample: DOGE is neither of the two named symbols, has no
funding entry, and its 24h change of 1 percent is strictly inside
(-2, 2); the claim predicts no signal, but getTradeSignal returns SELL,
because the default return (lines 331-333) applies to every symbol, not
only BNB and SUI. -/
theorem default_signal_not_limited_to_named_symbols_cex :
    getTradeSignal [] [quietDoge] "DOGE" =
      some { signal := "SELL", color := "text-red-500", bgColor := "bg-red-500/10" } ∧
    quietDoge.price_change_percentage_24h = 1 := by
  constructor
  · with_unfolding_all decide
  · rfl

/-- C3 amended: in the no-funding branch, when the momentum rule does not
fire, the fixed default applies to every symbol, not only the two named
ones: BNB gets BUY and every other symbol gets SELL, so no symbol in this
branch ever shows the no-signal result. -/
theorem default_signal_applies_to_every_symbol (fundingRates : FundingRateData)
    (cryptoData : List CryptoData) (symbol : String) (crypto : CryptoData)
    (hrate : List.lookup (toUpperCase symbol) fundingRates = none)
    (hfind : cryptoData.find? (fun c => toUpperCase c.symbol == toUpperCase symbol) = some crypto)
    (hlo : -2 < crypto.price_change_percentage_24h)
    (hhi : crypto.price_change_percentage_24h < 2) :
    getTradeSignal fundingRates cryptoData symbol = defaultSignal symbol ∧
    getTradeSignal fundingRates cryptoData symbol ≠ none := by
  have h1 : ¬(crypto.price_change_percentage_24h ≥ 2) := by intro h1; linarith
  have h2 : ¬(crypto.price_change_percentage_24h ≤ -2) := by intro h2; linarith
  have heq : getTradeSignal fundingRates cryptoData symbol = defaultSignal symbol := by
    simp only [getTradeSignal, hrate, noRatePath, hfind]
    rw [if_neg h1, if_neg h2]
  refine ⟨heq, ?_⟩
  rw [heq]
  unfold defaultSignal
  split <;> simp

/-- C3 amended witness: the specification scenario, SUI with no funding
entry and a 1 percent 24h change receives the default signal (SELL, as
SUI is not BNB), not the no-signal result. -/
theorem default_signal_applies_to_every_symbol_witness :
    getTradeSignal [] [quietSui] "SUI" = defaultSignal "SUI" ∧
    getTradeSignal [] [quietSui] "SUI" ≠ none :=
  default_signal_applies_to_every_symbol [] [quietSui] "SUI" quietSui rfl rfl
    (by norm_num [quietSui]) (by norm_num [quietSui])

/-- C10: a funding-rate entry that is present but exactly 0 is treated as
absent, because presence is tested by the JavaScript truthiness of the
looked-up value rather than key membership: getTradeSignal takes the
no-funding path (24h momentum rule, then the fixed default). -/
theorem zero_rate_takes_no_funding_path (fundingRates : FundingRateData)
    (cryptoData : List CryptoData) (symbol : String)
    (h : List.lookup (toUpperCase symbol) fundingRates = some 0) :
    getTradeSignal fundingRates cryptoData symbol = noRatePath cryptoData symbol := by
  simp only [getTradeSignal, h]
  rw [if_pos trivial]

/-- C10 witness: a stored DOGE rate of exactly 0 routes getTradeSignal
through the no-funding path. -/
theorem zero_rate_takes_no_funding_path_witness :
    getTradeSignal [("DOGE", 0)] [quietDoge] "DOGE" = noRatePath [quietDoge] "DOGE" :=
  zero_rate_takes_no_funding_path [("DOGE", 0)] [quietDoge] "DOGE" rfl

/-- C9: the signal function is a pure function of the two snapshots and
the symbol: equal snapshots give identical results, and in this purely
functional embedding a call cannot mutate either snapshot. -/
theorem trade_signal_deterministic (f₁ f₂ : FundingRateData)
    (d₁ d₂ : List CryptoData) (symbol : String) (hf : f₁ = f₂) (hd : d₁ = d₂) :
    getTradeSignal f₁ d₁ symbol = getTradeSignal f₂ d₂ symbol := by
  rw [hf, hd]

/-- C9 witness: two calls on the same concrete snapshots agree. -/
theorem trade_signal_deterministic_witness :
    getTradeSignal [("BTC", 0.0123)] [quietSui] "BTC" =
      getTradeSignal [("BTC", 0.0123)] [quietSui] "BTC" :=
  trade_signal_deterministic [("BTC", 0.0123)] [("BTC", 0.0123)] [quietSui] [quietSui] "BTC" rfl rfl

/-- C1 counterexample: a transport failure of the very first fetch
(attempt count 0) schedules no retry at all and immediately substitutes
the fallback dataset, contradicting the claim that fallback is deferred
behind an exponential-backoff retry. -/
theorem fetch_failure_schedules_no_retry_cex :
    (fetchCryptoData .transportError (fun _ => 0) 0).scheduledRetry = none ∧
    (fetchCryptoData .transportError (fun _ => 0) 0).cryptoData = mockCryptoData :=
  ⟨rfl, rfl⟩

/-- C1 amended: on a fetch failure (HTTP or transport) at any attempt
count, the inner catch immediately substitutes the fallback dataset and
the cycle schedules no retry; the outer backoff handler is unreachable
from a fetch failure. That handler, were it invoked with attempt count
k below 3, would schedule exactly one retry with delay 2^k seconds
(1s, 2s, 4s) and none from attempt count 3 on. -/
theorem fetch_failure_immediate_fallback_with_unreachable_backoff
    (rand : Nat → ℚ) (k n status : Nat) (statusText : String) :
    (fetchCryptoData (.httpError status statusText) rand k).cryptoData = mockCryptoData ∧
    (fetchCryptoData (.httpError status statusText) rand k).scheduledRetry = none ∧
    (fetchCryptoData .transportError rand k).cryptoData = mockCryptoData ∧
    (fetchCryptoData .transportError rand k).scheduledRetry = none ∧
    (k < 3 → (retryLogic k n).scheduledRetry =
        some { nextRetryCount := k + 1, delayMs := 2 ^ k * 1000 }) ∧
    (3 ≤ k → (retryLogic k n).scheduledRetry = none) := by
  refine ⟨rfl, rfl, rfl, rfl, ?_, ?_⟩
  · intro hk
    unfold retryLogic
    rw [if_pos hk]
  · intro hk
    unfold retryLogic
    rw [if_neg (by omega)]

/-- C1 amended witness: at attempt count 1 a transport failure schedules
no retry and yields the fallback dataset, while the unreachable outer
handler would have scheduled a single 2-second retry. -/
theorem fetch_failure_immediate_fallback_with_unreachable_backoff_witness :
    (fetchCryptoData .transportError (fun _ => 0) 1).cryptoData = mockCryptoData ∧
    (retryLogic 1 0).scheduledRetry = some { nextRetryCount := 2, delayMs := 2000 } := by
  have h := fetch_failure_immediate_fallback_with_unreachable_backoff (fun _ => 0) 1 0 500 "Internal Server Error"
  exact ⟨h.2.2.1, h.2.2.2.2.1 (by decide)⟩

/-- C6 counterexample: four consecutive scheduler ticks whose fetches all
fail leave the error state unset (none), not a string mentioning 4
attempts, because each failure is absorbed by the inner catch at attempt
count 0 and the retry-exhaustion handler never runs; the record array
does equal the fallback dataset. -/
theorem four_consecutive_failures_leave_error_unset_cex :
    (runCycles (List.replicate 4 .transportError) (fun _ => 0)).error = none ∧
    (runCycles (List.replicate 4 .transportError) (fun _ => 0)).cryptoData = mockCryptoData :=
  ⟨rfl, rfl⟩

/-- C6 amended: a fetch failure at any attempt count, including 3, sets
no error state and schedules no retry, and leaves the record array equal
to the fixed 10-entry fallback dataset (never empty); the outer
exhaustion handler is unreachable from fetch failures, and had it run
with attempt count 3 it would set exactly the error string mentioning 4
attempts and schedule no further retry. -/
theorem retry_exhaustion_unreachable_but_fallback_nonempty (rand : Nat → ℚ) (n : Nat) :
    (fetchCryptoData .transportError rand 3).error = none ∧
    (fetchCryptoData .transportError rand 3).scheduledRetry = none ∧
    (fetchCryptoData .transportError rand 3).cryptoData = mockCryptoData ∧
    mockCryptoData.length = 10 ∧
    (retryLogic 3 n).error = some "Connection failed after 4 attempts. Using offline data." ∧
    (retryLogic 3 n).scheduledRetry = none := by
  refine ⟨rfl, rfl, rfl, rfl, ?_, ?_⟩
  · unfold retryLogic
    rw [if_neg (by omega : ¬(3 : Nat) < 3)]
    rfl
  · unfold retryLogic
    rw [if_neg (by omega : ¬(3 : Nat) < 3)]

/-- C7 counterexample: a successful fetch whose response array is empty
leaves the snapshot with 0 records, so a completed refresh cycle does not
always hold exactly 10 entries. -/
theorem success_path_can_yield_partial_snapshot_cex :
    (fetchCryptoData (.success []) (fun _ => 0) 0).cryptoData.length = 0 ∧
    (fetchCryptoData (.success []) (fun _ => 0) 0).cryptoData.length ≠ 10 :=
  ⟨rfl, by decide⟩

/-- C7 amended: on the fallback path the snapshot is exactly the 10-entry
fallback dataset, whose ids equal the configured target-asset list in
order; on the success path the snapshot is exactly whatever array the
endpoint returned, with no count or order enforced by the code. -/
theorem fallback_snapshot_exactly_ten_success_unconstrained
    (rand : Nat → ℚ) (k status : Nat) (statusText : String) (data : List CryptoData) :
    (fetchCryptoData .transportError rand k).cryptoData.length = 10 ∧
    (fetchCryptoData .transportError rand k).cryptoData.map (fun c => c.id) = targetCoins ∧
    (fetchCryptoData (.httpError status statusText) rand k).cryptoData.length = 10 ∧
    (fetchCryptoData (.httpError status statusText) rand k).cryptoData.map (fun c => c.id) = targetCoins ∧
    (fetchCryptoData (.success data) rand k).cryptoData = data :=
  ⟨rfl, rfl, rfl, rfl, rfl⟩

/-- Bound on one generated funding rate: adding (x - 0.5) * 0.002 for a
uniform draw x in [0, 1) moves the base rate by at most 0.001. -/
theorem noise_abs_le (x b : ℚ) (h0 : 0 ≤ x) (h1 : x < 1) :
    |b + (x - 0.5) * 0.002 - b| ≤ 0.001 := by
  have hb : b + (x - 0.5) * 0.002 - b = (x - 0.5) * 0.002 := by ring
  rw [hb, abs_le]
  constructor <;> nlinarith

/-- C8: each cycle regenerates the funding-rate map over exactly the 10
tracked uppercase symbols in base-rate order, and every generated rate
differs from its fixed base rate by at most 0.001 in absolute value,
given uniform draws in [0, 1). -/
theorem funding_rates_domain_and_noise_bound (rand : Nat → ℚ)
    (h : ∀ i, 0 ≤ rand i ∧ rand i < 1) :
    (generateFundingRates rand).map Prod.fst =
      ["BTC", "ETH", "BNB", "SOL", "ADA", "SUI", "SEI", "HYPE", "DOGE", "BONK"] ∧
    List.Forall₂ (fun p q => p.1 = q.1 ∧ |p.2 - q.2| ≤ 0.001)
      (generateFundingRates rand) baseRates := by
  refine ⟨rfl, ?_⟩
  have he : generateFundingRates rand =
      [("BTC", 0.0123 + (rand 0 - 0.5) * 0.002), ("ETH", -0.0087 + (rand 1 - 0.5) * 0.002),
       ("BNB", 0.0034 + (rand 2 - 0.5) * 0.002), ("SOL", -0.0156 + (rand 3 - 0.5) * 0.002),
       ("ADA", 0.0089 + (rand 4 - 0.5) * 0.002), ("SUI", -0.0023 + (rand 5 - 0.5) * 0.002),
       ("SEI", 0.0067 + (rand 6 - 0.5) * 0.002), ("HYPE", -0.0134 + (rand 7 - 0.5) * 0.002),
       ("DOGE", 0.0045 + (rand 8 - 0.5) * 0.002), ("BONK", -0.0078 + (rand 9 - 0.5) * 0.002)] := rfl
  rw [he]
  exact .cons ⟨rfl, noise_abs_le (rand 0) 0.0123 (h 0).1 (h 0).2⟩
    (.cons ⟨rfl, noise_abs_le (rand 1) (-0.0087) (h 1).1 (h 1).2⟩
    (.cons ⟨rfl, noise_abs_le (rand 2) 0.0034 (h 2).1 (h 2).2⟩
    (.cons ⟨rfl, noise_abs_le (rand 3) (-0.0156) (h 3).1 (h 3).2⟩
    (.cons ⟨rfl, noise_abs_le (rand 4) 0.0089 (h 4).1 (h 4).2⟩
    (.cons ⟨rfl, noise_abs_le (rand 5) (-0.0023) (h 5).1 (h 5).2⟩
    (.cons ⟨rfl, noise_abs_le (rand 6) 0.0067 (h 6).1 (h 6).2⟩
    (.cons ⟨rfl, noise_abs_le (rand 7) (-0.0134) (h 7).1 (h 7).2⟩
    (.cons ⟨rfl, noise_abs_le (rand 8) 0.0045 (h 8).1 (h 8).2⟩
    (.cons ⟨rfl, noise_abs_le (rand 9) (-0.0078) (h 9).1 (h 9).2⟩ .nil)))))))))

/-- C8 witness: with every draw equal to one half, the generated map
covers exactly the 10 tracked symbols and every rate stays within 0.001
of its base rate. -/
theorem funding_rates_domain_and_noise_bound_witness :
    (generateFundingRates (fun _ => mkRat 1 2)).map Prod.fst =
      ["BTC", "ETH", "BNB", "SOL", "ADA", "SUI", "SEI", "HYPE", "DOGE", "BONK"] ∧
    List.Forall₂ (fun p q => p.1 = q.1 ∧ |p.2 - q.2| ≤ 0.001)
      (generateFundingRates (fun _ => mkRat 1 2)) baseRates := by
  have h : ∀ i : Nat, (0 : ℚ) ≤ mkRat 1 2 ∧ (mkRat 1 2 : ℚ) < 1 := by
    intro i
    exact ⟨by decide, by decide⟩
  exact funding_rates_domain_and_noise_bound (fun _ => mkRat 1 2) h

end CryptoDashboard
